import Mathlib

/-!
Verification of the invoice approval and posting pipeline.

This file gives a shallow embedding of the pipeline implemented in
`src/app/flows/process_invoice.py` and
`src/app/flows/process_invoice_with_entity.py` (with the persistent entity of
`src/app/db/entities.py`), and proves or refutes the stated properties of the
specification against it.

Modelling conventions:
- Python `float` amounts are modelled as rationals (`ℚ`); the float values the
  pipeline manipulates are exactly representable at this granularity and the
  balance check compares against the literal tolerance `0.01`.
- Python `datetime` values are opaque ticks (`Nat`); `datetime.now()` becomes an
  explicit `now` parameter.
- `planar.files.PlanarFile` is an opaque file reference (`String`).
- External collaborators (the extraction agent, the human reviewer) are oracles
  passed as function parameters; the extraction step itself is elided and the
  workflows take the extracted invoice directly.
- Exceptions (`raise ValueError`) become `Except String`; stateful collaborators
  (the mock ledger client, the invoice store) use explicit state passing.
- Each step additionally returns the list of observable collaborator calls it
  performed (`PipelineEvent`), used to state ordering and occurrence properties.
-/

/-- Python `datetime` values, modelled as opaque ticks. -/
abbrev DateTime := Nat

/-- An uploaded file reference (`planar.files.PlanarFile`), opaque to the pipeline. -/
abbrev PlanarFile := String

/-- Python's built-in `abs` on numbers. -/
def pyAbs (q : ℚ) : ℚ := if q < 0 then -q else q

/-- Observable collaborator calls made by pipeline steps, recorded in order of
occurrence, used to state which steps were invoked and in which order. -/
inductive PipelineEvent where
  /-- The approval rule evaluator was invoked with this amount and threshold. -/
  | ruleEval (amount threshold : ℚ)
  /-- The human review gate was invoked (the pipeline suspended for a reviewer). -/
  | humanReview
  /-- The ledger client's posting call was invoked. -/
  | postEntry
  /-- The invoice store was queried for records with this invoice number. -/
  | dupQuery (number : String)
deriving DecidableEq

/-- Whether an event is an invocation of the human review gate. -/
def PipelineEvent.isHumanReview : PipelineEvent → Bool
  | .humanReview => true
  | _ => false

/-- Whether an event is an invocation of the ledger posting call. -/
def PipelineEvent.isPost : PipelineEvent → Bool
  | .postEntry => true
  | _ => false

/-- Whether an event is an invocation of the approval rule evaluator. -/
def PipelineEvent.isRuleEval : PipelineEvent → Bool
  | .ruleEval _ _ => true
  | _ => false

namespace ProcessInvoice

/-! Embedding of `src/app/flows/process_invoice.py`. -/

/-- The extracted invoice data (`InvoiceData`, lines 20-26). -/
structure InvoiceData where
  file : PlanarFile
  vendor : String
  amount : ℚ
  description : String
  invoice_date : DateTime
  invoice_number : String
deriving DecidableEq

/-- `InvoiceDataReviewed` (lines 30-31): `InvoiceData` plus the `approved` flag. -/
structure InvoiceDataReviewed extends InvoiceData where
  approved : Bool
deriving DecidableEq

/-- `RuleInput` (lines 35-37): the approval rule's input. -/
structure RuleInput where
  amount : ℚ
  threshold : ℚ
deriving DecidableEq

/-- `RuleOutput` (lines 41-43): the approval rule's verdict. -/
structure RuleOutput where
  approved : Bool
  reason : String
deriving DecidableEq

/-- `JournalEntryLine` (lines 66-71): a single debit or credit line. -/
structure JournalEntryLine where
  account_name : String
  debit : ℚ := 0
  credit : ℚ := 0
deriving DecidableEq

/-- `JournalEntry` (lines 74-82): a complete journal entry. -/
structure JournalEntry where
  entry_date : DateTime
  invoice_number : String
  vendor : String
  description : String
  lines : List JournalEntryLine
  workbook : Option PlanarFile := none
deriving DecidableEq

/-- Sum of the debit column (line 87). -/
def JournalEntry.total_debits (e : JournalEntry) : ℚ :=
  (e.lines.map (fun l => l.debit)).sum

/-- Sum of the credit column (line 88). -/
def JournalEntry.total_credits (e : JournalEntry) : ℚ :=
  (e.lines.map (fun l => l.credit)).sum

/-- The `is_balanced` property (lines 84-89): debits equal credits up to the
floating-point tolerance `0.01`. -/
def JournalEntry.is_balanced (e : JournalEntry) : Bool :=
  decide (pyAbs (e.total_debits - e.total_credits) < 1/100)

/-- `GLApiResponse` (lines 96-102): the ledger API's response. -/
structure GLApiResponse where
  success : Bool
  entry_id : String
  message : String
  timestamp : DateTime
deriving DecidableEq

/-- The state of `MockGeneralLedgerClient` (lines 105-121); `__init__` gives the
defaults, in particular `entry_counter = 1000`. -/
structure MockGeneralLedgerClient where
  base_url : String := "https://api.mockgl.example.com"
  api_key : String := "mock_api_key_12345"
  entry_counter : Nat := 1000
deriving DecidableEq

/-- A freshly constructed client, `MockGeneralLedgerClient()`. -/
def MockGeneralLedgerClient.init : MockGeneralLedgerClient := {}

/-- `MockGeneralLedgerClient.post_journal_entry` (lines 123-150): validate the
entry; on an unbalanced entry return a failure response without touching the
counter; otherwise increment the counter and return a success response whose
`entry_id` is the decimal rendering `JE-<counter>`. The mutation of
`self.entry_counter` is modelled by returning the updated client state. -/
def MockGeneralLedgerClient.post_journal_entry (c : MockGeneralLedgerClient)
    (journal_entry : JournalEntry) (now : DateTime) :
    MockGeneralLedgerClient × GLApiResponse :=
  if !journal_entry.is_balanced then
    (c, { success := false, entry_id := "",
          message := "Journal entry is not balanced", timestamp := now })
  else
    let counter := c.entry_counter + 1
    ({ c with entry_counter := counter },
     { success := true,
       entry_id := "JE-" ++ Nat.repr counter,
       message := "Journal entry posted successfully for vendor " ++ journal_entry.vendor,
       timestamp := now })

/-- The `auto_approver` rule (lines 378-383): approve exactly when the amount is
strictly below the threshold; the reason is the template naming the threshold. -/
def auto_approver (input : RuleInput) : RuleOutput :=
  { approved := decide (input.amount < input.threshold),
    reason := "Amount is under $" ++ toString input.threshold }

/-- The `maybe_approve` step (lines 395-408). The human reviewer (the `Human`
collaborator `human_review`) is an oracle parameter giving the
`InvoiceDataReviewed` the reviewer returns. The `raise ValueError` on a human
rejection becomes `Except.error`. The second component records the collaborator
calls performed: the rule evaluation always happens first; the review gate is
reached only on the non-approved branch. -/
def maybe_approve (human_review : InvoiceData → InvoiceDataReviewed)
    (invoice : InvoiceData) : Except String InvoiceDataReviewed × List PipelineEvent :=
  let auto_approve_result := auto_approver { amount := invoice.amount, threshold := 1000 }
  if auto_approve_result.approved then
    (.ok { toInvoiceData := invoice, approved := true },
     [.ruleEval invoice.amount 1000])
  else
    let reviewed_invoice := human_review invoice
    if reviewed_invoice.approved then
      (.ok reviewed_invoice, [.ruleEval invoice.amount 1000, .humanReview])
    else
      (.error "Invoice was not approved by human reviewer",
       [.ruleEval invoice.amount 1000, .humanReview])

/-- The journal entry constructed by `write_invoice_to_general_ledger`
(lines 427-446): a fixed two-line template debiting the expense account and
crediting accounts payable with the invoice amount. -/
def build_journal_entry (invoice : InvoiceData) : JournalEntry :=
  { entry_date := invoice.invoice_date,
    invoice_number := invoice.invoice_number,
    vendor := invoice.vendor,
    description := "Invoice from " ++ invoice.vendor ++ " - Invoice #" ++ invoice.invoice_number,
    lines := [
      { account_name := "Office Supplies Expense",
        debit := invoice.amount, credit := 0 },
      { account_name := "Accounts Payable - " ++ invoice.vendor,
        debit := 0, credit := invoice.amount } ] }

/-- The workbook exporter `create_journal_entry_excel` (lines 163-352), an
external collaborator producing a file reference; modelled by the uploaded
filename (line 338, the date rendering elided as part of the opaque file
reference). Its spreadsheet contents are out of scope. -/
def create_journal_entry_excel (journal_entry : JournalEntry) : PlanarFile :=
  "journal_entry_" ++ journal_entry.invoice_number ++ ".xlsx"

/-- Lines 459-462 of `write_invoice_to_general_ledger`: the step constructs a
fresh `MockGeneralLedgerClient()` for every posting and posts through it. -/
def pipeline_post (journal_entry : JournalEntry) (now : DateTime) :
    MockGeneralLedgerClient × GLApiResponse :=
  MockGeneralLedgerClient.init.post_journal_entry journal_entry now

/-- The `write_invoice_to_general_ledger` step (lines 423-487): build the
two-line entry, raise if it is unbalanced, attach the exported workbook, post it
through a freshly constructed client, and raise if the posting response is a
failure. The `.postEntry` event records the call to the client's posting method. -/
def write_invoice_to_general_ledger (invoice : InvoiceData) (now : DateTime) :
    Except String JournalEntry × List PipelineEvent :=
  let journal_entry := build_journal_entry invoice
  if !journal_entry.is_balanced then
    (.error "Journal entry is not balanced!", [])
  else
    let excel_file := create_journal_entry_excel journal_entry
    let journal_entry2 := { journal_entry with workbook := some excel_file }
    let pr := pipeline_post journal_entry2 now
    if !pr.2.success then
      (.error ("Failed to post journal entry: " ++ pr.2.message), [.postEntry])
    else
      (.ok journal_entry2, [.postEntry])

/-- The `process_invoice` workflow (lines 51-56), starting from the extracted
invoice (the extraction agent is an external collaborator and is elided).
`maybe_approve` either raises (propagated) or returns an `InvoiceDataReviewed`,
which as a Python object is always truthy, so the posting step is always reached
on the normal path. -/
def process_invoice (human_review : InvoiceData → InvoiceDataReviewed)
    (invoice : InvoiceData) (now : DateTime) :
    Except String JournalEntry × List PipelineEvent :=
  match maybe_approve human_review invoice with
  | (.error e, evs) => (.error e, evs)
  | (.ok invoice_approved, evs) =>
    let wr := write_invoice_to_general_ledger invoice_approved.toInvoiceData now
    (wr.1, evs ++ wr.2)

end ProcessInvoice

namespace ProcessInvoiceWithEntity

/-! Embedding of `src/app/flows/process_invoice_with_entity.py`, which uses the
persistent `Invoice` entity of `src/app/db/entities.py` both as the extracted
candidate and as the stored row type. -/

/-- The `Invoice` entity (`src/app/db/entities.py` lines 6-12) declares the
columns `vendor` and `amount` (plus opaque audit fields from its mixins, elided
here). The duplicate-check query of the flow additionally references
`Invoice.invoice_number`; that column is absent from `entities.py`. Modelled
from the spec: the spec's `InvoiceRecord` is "keyed by `invoiceNumber`
(uniqueness is the duplicate-detection key)", so the entity is given an
`invoice_number` field here, which is the reading the flow's query requires. -/
structure Invoice where
  vendor : String
  amount : ℚ
  invoice_number : String
deriving DecidableEq

/-- `RuleInput` of this flow (lines 25-26): the amount only. -/
structure RuleInput where
  amount : ℚ
deriving DecidableEq

/-- `RuleOutput` of this flow (lines 29-31). -/
structure RuleOutput where
  approved : Bool
  reason : String
deriving DecidableEq

/-- The `auto_approve` rule (lines 66-68): approve exactly when the amount is
strictly below the hard-coded threshold 1000. -/
def auto_approve (input : RuleInput) : RuleOutput :=
  { approved := decide (input.amount < 1000),
    reason := "Amount is under $1000" }

/-- The equality test Python applies between the candidate's `invoice_number`
(a `str`) and one element yielded by the SQLAlchemy query result (an `Invoice`
ORM row object) when evaluating `invoice.invoice_number in
historical_invoice_numbers` (line 88). A `str` and an ORM row instance are
values of unrelated types: `str.__eq__` returns `NotImplemented` against an
`Invoice`, the row class defines no `__eq__` accepting a `str`, and Python's
fallback identity comparison is false, so the test is false for every row.
(Moreover `historical_invoice_numbers.all()` on line 87 has already exhausted
the result, so the membership test iterates an empty remainder — by either
reading no element ever matches.) -/
def str_eq_row (number : String) (row : Invoice) : Bool := false

/-- Python's `in` over the query result: some yielded row compares equal to the
string. -/
def str_in_rows (number : String) (rows : List Invoice) : Bool :=
  rows.any (fun row => str_eq_row number row)

/-- The `verify_unique_invoice_step` step (lines 79-91): one read against the
invoice store scoped to `invoice_number` equality (the `select ... where`
statement, modelled as a filter of the store), then the membership test of
line 88 decides the verdict. The step only reads, so the store is returned
unchanged; the `.dupQuery` event records the single store read. -/
def verify_unique_invoice_step (store : List Invoice) (invoice : Invoice) :
    (RuleOutput × List Invoice) × List PipelineEvent :=
  let historical_invoice_numbers :=
    store.filter (fun r => r.invoice_number == invoice.invoice_number)
  let verdict : RuleOutput :=
    if str_in_rows invoice.invoice_number historical_invoice_numbers then
      { approved := false,
        reason := "Invoice number " ++ invoice.invoice_number ++ " is a duplicate" }
    else
      { approved := true,
        reason := "Invoice number " ++ invoice.invoice_number ++ " is NOT a duplicate" }
  ((verdict, store), [.dupQuery invoice.invoice_number])

/-- Modelled from the spec: the intended duplicate-check semantics ("does a
record with this invoice number already exist", spec section 9 and the
`checkDuplicate` contract of section 4.2), stated directly over the store.
Used only to compare the step's actual verdict against the intent. -/
def checkDuplicate_intended (store : List Invoice) (number : String) : Bool :=
  store.any (fun r => r.invoice_number == number)

/-- The `maybe_approve` step of this flow (lines 94-100): auto-approve below the
threshold, otherwise hand to the human reviewer and return the reviewer's output
unconditionally. The reviewer is an oracle parameter. -/
def maybe_approve (human_review : Invoice → Invoice) (invoice : Invoice) :
    Invoice × List PipelineEvent :=
  let auto_approve_result := auto_approve { amount := invoice.amount }
  if auto_approve_result.approved then
    (invoice, [.ruleEval invoice.amount 1000])
  else
    (human_review invoice, [.ruleEval invoice.amount 1000, .humanReview])

/-- The `process_invoice_with_entity` workflow (lines 104-110), starting from
the extracted invoice: run the duplicate-check step; only when its verdict is
`approved` run `maybe_approve`, otherwise return Python's implicit `None`. -/
def process_invoice_with_entity (human_review : Invoice → Invoice)
    (store : List Invoice) (invoice : Invoice) :
    Option Invoice × List PipelineEvent :=
  let vr := verify_unique_invoice_step store invoice
  let unique_invoice := vr.1.1
  if unique_invoice.approved then
    let mr := maybe_approve human_review invoice
    (some mr.1, vr.2 ++ mr.2)
  else
    (none, vr.2)

end ProcessInvoiceWithEntity

/-! Injectivity of the decimal rendering `Nat.repr`, needed to compare the
ledger client's `entry_id` strings. -/

/-- Reads a list of decimal digit characters back to the number (most
significant first). -/
def ofDigitChars (cs : List Char) : Nat :=
  cs.foldl (fun a c => a * 10 + (c.toNat - 48)) 0

/-- A digit character's code point recovers the digit. -/
theorem digitChar_toNat_sub (d : Nat) (h : d < 10) : (Nat.digitChar d).toNat - 48 = d := by
  interval_cases d <;> decide

/-- Folding the digit-reading step over `Nat.toDigitsCore` recovers the number
into the accumulator position. -/
theorem foldl_toDigitsCore (fuel : Nat) :
    ∀ (n : Nat) (ds : List Char), n < fuel →
      (Nat.toDigitsCore 10 fuel n ds).foldl (fun a c => a * 10 + (c.toNat - 48)) 0 =
        ds.foldl (fun a c => a * 10 + (c.toNat - 48)) n := by
  induction fuel with
  | zero => intro n ds h; omega
  | succ fuel ih =>
    intro n ds h
    rw [Nat.toDigitsCore]
    by_cases h10 : n / 10 = 0
    · have hn : n < 10 := by omega
      simp only [h10, if_pos]
      simp only [List.foldl_cons]
      rw [digitChar_toNat_sub (n % 10) (Nat.mod_lt n (by norm_num))]
      congr 1
      omega
    · simp only [h10, if_neg, if_false]
      rw [ih (n / 10) _ (by omega)]
      simp only [List.foldl_cons]
      rw [digitChar_toNat_sub (n % 10) (Nat.mod_lt n (by omega))]
      congr 1
      omega

/-- Reading back the digits of `n` yields `n`. -/
theorem ofDigitChars_toDigits (n : Nat) : ofDigitChars (Nat.toDigits 10 n) = n := by
  have h := foldl_toDigitsCore (n + 1) n [] (Nat.lt_succ_self n)
  simpa [ofDigitChars, Nat.toDigits] using h

/-- The decimal rendering of naturals is injective. -/
theorem Nat_repr_inj {m n : Nat} (h : Nat.repr m = Nat.repr n) : m = n := by
  have hd : Nat.toDigits 10 m = Nat.toDigits 10 n := by
    have h2 := congrArg String.data h
    simpa [Nat.repr, List.asString] using h2
  have h3 := congrArg ofDigitChars hd
  rwa [ofDigitChars_toDigits, ofDigitChars_toDigits] at h3

/-- Appending to a fixed string on the left is cancellative. -/
theorem string_append_left_cancel {a b c : String} (h : a ++ b = a ++ c) : b = c := by
  have h2 := congrArg String.data h
  simp only [String.data_append] at h2
  exact String.ext (List.append_cancel_left h2)

namespace ProcessInvoice

/-! Helper lemmas shared by several claims. -/

/-- The two-line template the builder emits is always balanced: both columns sum
to the invoice amount. -/
theorem build_journal_entry_is_balanced (invoice : InvoiceData) :
    (build_journal_entry invoice).is_balanced = true := by
  simp [JournalEntry.is_balanced, JournalEntry.total_debits, JournalEntry.total_credits,
    build_journal_entry, pyAbs]

/-- The exact journal entry value the posting step transmits to the ledger
client: the built entry with the exported workbook reference attached. -/
def posted_entry (invoice : InvoiceData) : JournalEntry :=
  { build_journal_entry invoice with
    workbook := some (create_journal_entry_excel (build_journal_entry invoice)) }

/-- Attaching the workbook does not change the lines, hence not the balance. -/
theorem posted_entry_is_balanced (invoice : InvoiceData) :
    (posted_entry invoice).is_balanced = true :=
  build_journal_entry_is_balanced invoice

/-- On every invoice the posting step succeeds: the built entry is balanced, the
freshly constructed client accepts it, and the step returns the entry with the
workbook attached, having performed exactly one posting call. -/
theorem write_invoice_ok (invoice : InvoiceData) (now : DateTime) :
    write_invoice_to_general_ledger invoice now = (.ok (posted_entry invoice), [.postEntry]) := by
  have hb := build_journal_entry_is_balanced invoice
  have hb2 := posted_entry_is_balanced invoice
  simp only [write_invoice_to_general_ledger, hb, Bool.not_true, Bool.false_eq_true, if_false,
    pipeline_post, MockGeneralLedgerClient.post_journal_entry, posted_entry] at hb2 ⊢
  simp [hb2]

end ProcessInvoice

namespace ProcessInvoice

/-- C1: For every approved invoice of amount A (finite, non-negative), the
journal entry produced by the posting step's builder contains exactly two lines
— one with debit A and credit 0, one with debit 0 and credit A — and satisfies
abs(sum(debit) - sum(credit)) < 0.01. -/
theorem C1_builder_two_lines_balanced (invoice : InvoiceData)
    (hA : 0 ≤ invoice.amount) :
    ∃ l1 l2 : JournalEntryLine,
      (build_journal_entry invoice).lines = [l1, l2] ∧
      l1.debit = invoice.amount ∧ l1.credit = 0 ∧
      l2.debit = 0 ∧ l2.credit = invoice.amount ∧
      (build_journal_entry invoice).is_balanced = true :=
  ⟨_, _, rfl, rfl, rfl, rfl, rfl, build_journal_entry_is_balanced invoice⟩

/-- The invoice of the spec's end-to-end scenario 1, used as the concrete C1
input. -/
def c1_invoice : InvoiceData :=
  { file := "invoice.pdf", vendor := "Acme", amount := 500,
    description := "Office supplies", invoice_date := 0, invoice_number := "INV-1001" }

/-- Witness for C1: the non-negativity hypothesis holds at the scenario-1
invoice and the builder's output there has the claimed shape. -/
theorem C1_witness :
    0 ≤ c1_invoice.amount ∧
    (∃ l1 l2 : JournalEntryLine,
      (build_journal_entry c1_invoice).lines = [l1, l2] ∧
      l1.debit = c1_invoice.amount ∧ l1.credit = 0 ∧
      l2.debit = 0 ∧ l2.credit = c1_invoice.amount ∧
      (build_journal_entry c1_invoice).is_balanced = true) :=
  ⟨by decide, C1_builder_two_lines_balanced c1_invoice (by decide)⟩

/-- C2: For all amount and threshold values, the approval rule evaluator returns
approved = (amount < threshold), with a reason string naming the threshold; in
particular, for amount == threshold it returns approved = false (strict
inequality). -/
theorem C2_rule_evaluator_strict_threshold (amount threshold : ℚ) :
    ((auto_approver { amount := amount, threshold := threshold }).approved = true ↔
      amount < threshold) ∧
    (auto_approver { amount := threshold, threshold := threshold }).approved = false ∧
    (auto_approver { amount := amount, threshold := threshold }).reason =
      "Amount is under $" ++ toString threshold :=
  ⟨by simp [auto_approver], by simp [auto_approver], rfl⟩

/-- First invoice for the C3 counterexample (auto-approvable, posted by the
pipeline). -/
def c3_invoice_1 : InvoiceData :=
  { file := "a.pdf", vendor := "Acme", amount := 500,
    description := "Office supplies", invoice_date := 0, invoice_number := "INV-1001" }

/-- Second invoice for the C3 counterexample, distinct from the first. -/
def c3_invoice_2 : InvoiceData :=
  { file := "b.pdf", vendor := "Globex", amount := 750,
    description := "Printer paper", invoice_date := 1, invoice_number := "INV-2002" }

/-- C3 counterexample: two distinct successful postings performed by the
pipeline (each going through the fresh client that the posting step constructs
on lines 459-462) both return entry id JE-1001, so the returned entryId values
do not differ. -/
theorem C3_counterexample :
    (pipeline_post (posted_entry c3_invoice_1) 0).2.success = true ∧
    (pipeline_post (posted_entry c3_invoice_2) 1).2.success = true ∧
    posted_entry c3_invoice_1 ≠ posted_entry c3_invoice_2 ∧
    (pipeline_post (posted_entry c3_invoice_1) 0).2.entry_id =
      (pipeline_post (posted_entry c3_invoice_2) 1).2.entry_id := by
  have h1 := posted_entry_is_balanced c3_invoice_1
  have h2 := posted_entry_is_balanced c3_invoice_2
  refine ⟨?_, ?_, ?_, ?_⟩
  · simp [pipeline_post, MockGeneralLedgerClient.post_journal_entry, h1]
  · simp [pipeline_post, MockGeneralLedgerClient.post_journal_entry, h2]
  · intro h
    have h3 := congrArg JournalEntry.invoice_number h
    simp [posted_entry, build_journal_entry, c3_invoice_1, c3_invoice_2] at h3
  · simp [pipeline_post, MockGeneralLedgerClient.post_journal_entry, h1, h2]

/-- C3 amended: within a single client instance the entry counter strictly
increases on success, so two consecutive successful postings through the same
client return distinct entry ids (uniqueness across pipeline postings fails only
because the posting step constructs a fresh client per call). -/
theorem C3_amended_same_client_distinct_ids (c : MockGeneralLedgerClient)
    (e1 e2 : JournalEntry) (t1 t2 : DateTime)
    (h1 : (c.post_journal_entry e1 t1).2.success = true)
    (h2 : ((c.post_journal_entry e1 t1).1.post_journal_entry e2 t2).2.success = true) :
    (c.post_journal_entry e1 t1).2.entry_id ≠
      ((c.post_journal_entry e1 t1).1.post_journal_entry e2 t2).2.entry_id := by
  cases hb1 : e1.is_balanced with
  | false => simp [MockGeneralLedgerClient.post_journal_entry, hb1] at h1
  | true =>
    cases hb2 : e2.is_balanced with
    | false => simp [MockGeneralLedgerClient.post_journal_entry, hb1, hb2] at h2
    | true =>
      simp only [MockGeneralLedgerClient.post_journal_entry, hb1, hb2, Bool.not_true,
        Bool.false_eq_true, if_false, ite_false, Bool.not_false, ite_true]
      intro heq
      have hr := Nat_repr_inj (string_append_left_cancel heq)
      omega

/-- Witness for C3's amended theorem: posting the two counterexample entries
consecutively through one freshly constructed client satisfies both success
hypotheses and yields distinct entry ids. -/
theorem C3_amended_witness :
    (MockGeneralLedgerClient.init.post_journal_entry (posted_entry c3_invoice_1) 0).2.success
      = true ∧
    ((MockGeneralLedgerClient.init.post_journal_entry (posted_entry c3_invoice_1) 0).1.post_journal_entry
      (posted_entry c3_invoice_2) 1).2.success = true ∧
    (MockGeneralLedgerClient.init.post_journal_entry (posted_entry c3_invoice_1) 0).2.entry_id ≠
      ((MockGeneralLedgerClient.init.post_journal_entry (posted_entry c3_invoice_1) 0).1.post_journal_entry
        (posted_entry c3_invoice_2) 1).2.entry_id :=
  ⟨by simp [MockGeneralLedgerClient.post_journal_entry, posted_entry_is_balanced],
   by simp [MockGeneralLedgerClient.post_journal_entry, posted_entry_is_balanced],
   C3_amended_same_client_distinct_ids MockGeneralLedgerClient.init
     (posted_entry c3_invoice_1) (posted_entry c3_invoice_2) 0 1
     (by simp [MockGeneralLedgerClient.post_journal_entry, posted_entry_is_balanced])
     (by simp [MockGeneralLedgerClient.post_journal_entry, posted_entry_is_balanced])⟩

end ProcessInvoice

namespace ProcessInvoice

/-- Reviewer oracle that rejects every invoice, used for the C5 witness. -/
def c5_reviewer : InvoiceData → InvoiceDataReviewed :=
  fun invoice => { toInvoiceData := invoice, approved := false }

/-- The invoice of the spec's end-to-end scenario 3: above the threshold, so it
is routed to human review. -/
def c5_invoice : InvoiceData :=
  { file := "big.pdf", vendor := "Initech", amount := 1500,
    description := "Consulting", invoice_date := 0, invoice_number := "INV-3003" }

/-- C5: If the human reviewer returns a ReviewedInvoice with approved == false
(on an invoice the rule evaluator did not auto-approve, so the gate is reached),
the pipeline terminates in the review-rejection failure outcome — the
ValueError of line 408, not a silent skip — and the ledger posting step is never
called for that invoice. -/
theorem C5_review_rejection_is_terminal (human_review : InvoiceData → InvoiceDataReviewed)
    (invoice : InvoiceData) (now : DateTime)
    (hgate : (auto_approver { amount := invoice.amount, threshold := 1000 }).approved = false)
    (hrej : (human_review invoice).approved = false) :
    (process_invoice human_review invoice now).1 =
      .error "Invoice was not approved by human reviewer" ∧
    (process_invoice human_review invoice now).2.all (fun ev => !ev.isPost) = true := by
  simp [process_invoice, maybe_approve, hgate, hrej, PipelineEvent.isPost]

/-- Witness for C5: the scenario-3 invoice is not auto-approved, the rejecting
reviewer returns approved = false, and the pipeline ends in the rejection error
without any posting call. -/
theorem C5_witness :
    (auto_approver { amount := c5_invoice.amount, threshold := 1000 }).approved = false ∧
    (c5_reviewer c5_invoice).approved = false ∧
    ((process_invoice c5_reviewer c5_invoice 0).1 =
      .error "Invoice was not approved by human reviewer" ∧
    (process_invoice c5_reviewer c5_invoice 0).2.all (fun ev => !ev.isPost) = true) :=
  ⟨by decide, rfl, C5_review_rejection_is_terminal c5_reviewer c5_invoice 0 (by decide) rfl⟩

/-- C7: The human review gate is invoked if and only if the approval rule
evaluator returns approved == false for the invoice's amount; an auto-approved
invoice proceeds to posting without any human review. The third equation
characterises when the pipeline reaches the posting call: exactly when the rule
approves or the reviewer approves, so on the auto-approval path the posting call
happens with no review event. -/
theorem C7_review_gate_iff_rule_denies (human_review : InvoiceData → InvoiceDataReviewed)
    (invoice : InvoiceData) (now : DateTime) :
    ((maybe_approve human_review invoice).2.any PipelineEvent.isHumanReview =
      !(auto_approver { amount := invoice.amount, threshold := 1000 }).approved) ∧
    ((process_invoice human_review invoice now).2.any PipelineEvent.isHumanReview =
      !(auto_approver { amount := invoice.amount, threshold := 1000 }).approved) ∧
    ((process_invoice human_review invoice now).2.any PipelineEvent.isPost =
      ((auto_approver { amount := invoice.amount, threshold := 1000 }).approved ||
        (human_review invoice).approved)) := by
  cases hb : (auto_approver { amount := invoice.amount, threshold := 1000 }).approved with
  | true =>
    refine ⟨?_, ?_, ?_⟩ <;>
      simp [maybe_approve, process_invoice, write_invoice_ok, hb,
        PipelineEvent.isHumanReview, PipelineEvent.isPost]
  | false =>
    cases hr : (human_review invoice).approved with
    | true =>
      refine ⟨?_, ?_, ?_⟩ <;>
        simp [maybe_approve, process_invoice, write_invoice_ok, hb, hr,
          PipelineEvent.isHumanReview, PipelineEvent.isPost]
    | false =>
      refine ⟨?_, ?_, ?_⟩ <;>
        simp [maybe_approve, process_invoice, write_invoice_ok, hb, hr,
          PipelineEvent.isHumanReview, PipelineEvent.isPost]

end ProcessInvoice

namespace ProcessInvoiceWithEntity

/-- A store already holding a record with invoice number INV-1001, used as the
C4 failing input. -/
def c4_store : List Invoice :=
  [{ vendor := "Acme", amount := 500, invoice_number := "INV-1001" }]

/-- A candidate invoice re-submitting the stored invoice number INV-1001. -/
def c4_candidate : Invoice :=
  { vendor := "Acme", amount := 500, invoice_number := "INV-1001" }

/-- C4: evaluated at a store that already contains the submitted invoice number,
the intended semantics says duplicate, but the duplicate-check step still
answers NOT a duplicate: the membership test of line 88 compares the
invoice-number string against query-result row objects and never matches. -/
theorem C4_duplicate_check_misses_duplicate :
    checkDuplicate_intended c4_store c4_candidate.invoice_number = true ∧
    ((verify_unique_invoice_step c4_store c4_candidate).1.1).approved = true ∧
    ((verify_unique_invoice_step c4_store c4_candidate).1.1).reason =
      "Invoice number INV-1001 is NOT a duplicate" :=
  ⟨rfl, rfl, rfl⟩

/-- The store for the C6 failing input, already holding invoice number INV-7. -/
def c6_store : List Invoice :=
  [{ vendor := "Acme", amount := 250, invoice_number := "INV-7" }]

/-- A candidate re-submitting the stored invoice number INV-7 with an
auto-approvable amount. -/
def c6_candidate : Invoice :=
  { vendor := "Acme", amount := 250, invoice_number := "INV-7" }

/-- Reviewer oracle for the C6 evaluation (never reached on this input). -/
def c6_reviewer : Invoice → Invoice := fun invoice => invoice

/-- C6: evaluated at a submission whose invoice number is already present in the
store, the pipeline does not terminate with a duplicate rejection: the
duplicate-check step approves it (see C4), the approval rule evaluator is
invoked afterwards, and the workflow returns the invoice instead of rejecting
it. -/
theorem C6_duplicate_does_not_short_circuit :
    checkDuplicate_intended c6_store c6_candidate.invoice_number = true ∧
    (process_invoice_with_entity c6_reviewer c6_store c6_candidate).2.any
      PipelineEvent.isRuleEval = true ∧
    (process_invoice_with_entity c6_reviewer c6_store c6_candidate).1 =
      some c6_candidate := by
  have h250 : (250:ℚ) < 1000 := by norm_num
  refine ⟨rfl, ?_, ?_⟩ <;>
    simp [process_invoice_with_entity, verify_unique_invoice_step, str_in_rows, str_eq_row,
      maybe_approve, auto_approve, c6_store, c6_candidate, c6_reviewer, h250,
      PipelineEvent.isRuleEval]

end ProcessInvoiceWithEntity

namespace ProcessInvoice

/-- C8: When the ledger posting client is given an entry that fails the balance
check, it returns a result with success == false, an empty entry id and a
message (the model's total return type is the no-raise behaviour), and the
unbalanced entry is never transmitted as a posted entry: the client state is
unchanged, so no entry id is assigned. -/
theorem C8_unbalanced_entry_rejected_without_id (c : MockGeneralLedgerClient)
    (e : JournalEntry) (now : DateTime) (h : e.is_balanced = false) :
    (c.post_journal_entry e now).2.success = false ∧
    (c.post_journal_entry e now).2.entry_id = "" ∧
    (c.post_journal_entry e now).2.message = "Journal entry is not balanced" ∧
    (c.post_journal_entry e now).1 = c := by
  simp [MockGeneralLedgerClient.post_journal_entry, h]

/-- An unbalanced journal entry: a lone debit line of 100 with no matching
credit. -/
def c8_entry : JournalEntry :=
  { entry_date := 0, invoice_number := "INV-9999", vendor := "Acme",
    description := "Broken entry",
    lines := [{ account_name := "Office Supplies Expense", debit := 100, credit := 0 }] }

/-- Witness for C8: the lone-debit entry fails the balance check and the client
rejects it with success = false, no entry id, and an unchanged counter. -/
theorem C8_witness :
    c8_entry.is_balanced = false ∧
    ((MockGeneralLedgerClient.init.post_journal_entry c8_entry 0).2.success = false ∧
    (MockGeneralLedgerClient.init.post_journal_entry c8_entry 0).2.entry_id = "" ∧
    (MockGeneralLedgerClient.init.post_journal_entry c8_entry 0).2.message =
      "Journal entry is not balanced" ∧
    (MockGeneralLedgerClient.init.post_journal_entry c8_entry 0).1 =
      MockGeneralLedgerClient.init) :=
  ⟨by norm_num [JournalEntry.is_balanced, JournalEntry.total_debits,
      JournalEntry.total_credits, c8_entry, pyAbs],
   C8_unbalanced_entry_rejected_without_id MockGeneralLedgerClient.init c8_entry 0
     (by norm_num [JournalEntry.is_balanced, JournalEntry.total_debits,
        JournalEntry.total_credits, c8_entry, pyAbs])⟩

/-- C10: Every ReviewedInvoice returned normally by the maybe-approve step has
approved == true — the auto-approval path constructs it with approved = true and
the human-review path returns the reviewer's output only after checking its
approved flag, raising otherwise — so the posting step only ever receives
invoices with approved == true. -/
theorem C10_normal_return_is_approved (human_review : InvoiceData → InvoiceDataReviewed)
    (invoice : InvoiceData) (out : InvoiceDataReviewed)
    (h : (maybe_approve human_review invoice).1 = .ok out) :
    out.approved = true := by
  by_cases hb : (auto_approver { amount := invoice.amount, threshold := 1000 }).approved = true
  · simp [maybe_approve, hb] at h
    subst h
    rfl
  · rw [Bool.not_eq_true] at hb
    by_cases hr : (human_review invoice).approved = true
    · simp [maybe_approve, hb, hr] at h
      subst h
      exact hr
    · rw [Bool.not_eq_true] at hr
      simp [maybe_approve, hb, hr] at h

/-- Reviewer oracle that approves every invoice unchanged, used for the C10
witness. -/
def c10_reviewer : InvoiceData → InvoiceDataReviewed :=
  fun invoice => { toInvoiceData := invoice, approved := true }

/-- Witness for C10 at the auto-approval path of the scenario-1 invoice. -/
theorem C10_witness :
    (maybe_approve c10_reviewer c1_invoice).1 =
      .ok { toInvoiceData := c1_invoice, approved := true } ∧
    ({ toInvoiceData := c1_invoice, approved := true } : InvoiceDataReviewed).approved = true :=
  ⟨rfl,
   C10_normal_return_is_approved c10_reviewer c1_invoice
     { toInvoiceData := c1_invoice, approved := true } rfl⟩

end ProcessInvoice

namespace ProcessInvoiceWithEntity

/-- C9: Duplicate detection is idempotent: for every invoice number and fixed
store state, running the duplicate-check step a second time on the store state
the first call returned (the step reads but never writes, so there is no
intervening insert) yields the same verdict — same approved flag and same
reason — and the store is unchanged. -/
theorem C9_duplicate_check_idempotent (store : List Invoice) (invoice : Invoice) :
    (verify_unique_invoice_step
        ((verify_unique_invoice_step store invoice).1.2) invoice).1.1.approved =
      (verify_unique_invoice_step store invoice).1.1.approved ∧
    (verify_unique_invoice_step
        ((verify_unique_invoice_step store invoice).1.2) invoice).1.1.reason =
      (verify_unique_invoice_step store invoice).1.1.reason ∧
    (verify_unique_invoice_step store invoice).1.2 = store :=
  ⟨rfl, rfl, rfl⟩

end ProcessInvoiceWithEntity
